import Mathlib

/-!
Verification development for the bitfinex REST v2 client
(src/bitfinex/rest/restv2.py).

The in-scope core is the request-authentication subsystem and the
response normalisation: `Client._nonce`, `Client._headers`,
`Client._post`, `Client._get` and `Client.__init__`.

Modelling conventions:
* Bytes are `Nat` values below 256; byte strings are `List Nat`.
* Python floats (`time.time()`, the nonce multiplier) are modelled by
  exact rationals `ℚ`; the wall clock is an explicit parameter.
* Python `None` is modelled by `Option`.
* Exceptions are modelled by `Except PyError`.
* The HTTP layer (`requests`) is modelled by an explicit oracle
  `http : Request → Response`; a `Response` carries its status code,
  reason phrase, the raw body text and (as `Option`) the JSON value the
  body parses to, `none` when the body is not valid JSON.
  In the `requests` library `Response.json()` is a method that raises
  `JSONDecodeError` on an unparseable body, while `Response.text` is a
  property holding a `str`; consequently a call `response.text()`
  raises `TypeError` (a `str` is not callable).
-/

namespace Bitfinex

/-- All 64-bit words are `Nat`s kept below `2 ^ 64` by masking. -/
def mask64 : Nat := 2 ^ 64 - 1

/-- Right rotation of a 64-bit word. -/
def rotr64 (x n : Nat) : Nat := ((x >>> n) ||| (x <<< (64 - n))) &&& mask64

/-- Bitwise complement of a 64-bit word. -/
def not64 (x : Nat) : Nat := x ^^^ mask64

/-- SHA-512 round constants (FIPS 180-4), shared by SHA-384, written as
decimal 64-bit values. -/
def K512 : List Nat :=
  [4794697086780616226, 8158064640168781261, 13096744586834688815,
   16840607885511220156, 4131703408338449720, 6480981068601479193,
   10538285296894168987, 12329834152419229976, 15566598209576043074,
   1334009975649890238, 2608012711638119052, 6128411473006802146,
   8268148722764581231, 9286055187155687089, 11230858885718282805,
   13951009754708518548, 16472876342353939154, 17275323862435702243,
   1135362057144423861, 2597628984639134821, 3308224258029322869,
   5365058923640841347, 6679025012923562964, 8573033837759648693,
   10970295158949994411, 12119686244451234320, 12683024718118986047,
   13788192230050041572, 14330467153632333762, 15395433587784984357,
   489312712824947311, 1452737877330783856, 2861767655752347644,
   3322285676063803686, 5560940570517711597, 5996557281743188959,
   7280758554555802590, 8532644243296465576, 9350256976987008742,
   10552545826968843579, 11727347734174303076, 12113106623233404929,
   14000437183269869457, 14369950271660146224, 15101387698204529176,
   15463397548674623760, 17586052441742319658, 1182934255886127544,
   1847814050463011016, 2177327727835720531, 2830643537854262169,
   3796741975233480872, 4115178125766777443, 5681478168544905931,
   6601373596472566643, 7507060721942968483, 8399075790359081724,
   8693463985226723168, 9568029438360202098, 10144078919501101548,
   10430055236837252648, 11840083180663258601, 13761210420658862357,
   14299343276471374635, 14566680578165727644, 15097957966210449927,
   16922976911328602910, 17689382322260857208, 500013540394364858,
   748580250866718886, 1242879168328830382, 1977374033974150939,
   2944078676154940804, 3659926193048069267, 4368137639120453308,
   4836135668995329356, 5532061633213252278, 6448918945643986474,
   6902733635092675308, 7801388544844847127]

/-- Working state of the SHA-512/SHA-384 compression function. -/
structure Sha2State where
  a : Nat
  b : Nat
  c : Nat
  d : Nat
  e : Nat
  f : Nat
  g : Nat
  h : Nat
deriving DecidableEq, Repr

/-- Initial hash value of SHA-384 (FIPS 180-4), written as decimal
64-bit values. -/
def sha384Init : Sha2State :=
  ⟨14680500436340154072, 7105036623409894663,
   10473403895298186519, 1526699215303891257,
   7436329637833083697, 10282925794625328401,
   15784041429090275239, 5167115440072839076⟩

/-- Big-endian assembly of a word from bytes. -/
def word64OfBytes (bs : List Nat) : Nat := bs.foldl (fun acc b => acc * 256 + b) 0

/-- Big-endian decomposition of a 64-bit word into 8 bytes. -/
def word64ToBytes (w : Nat) : List Nat :=
  [(w >>> 56) &&& 255, (w >>> 48) &&& 255, (w >>> 40) &&& 255, (w >>> 32) &&& 255,
   (w >>> 24) &&& 255, (w >>> 16) &&& 255, (w >>> 8) &&& 255, w &&& 255]

/-- Split a list into `fuel` consecutive chunks of `n` elements. -/
def chunksOf (n : Nat) : Nat → List Nat → List (List Nat)
  | 0, _ => []
  | fuel + 1, l => l.take n :: chunksOf n fuel (l.drop n)

/-- The 16-byte big-endian encoding of the message bit length. -/
def lengthBytes16 (n : Nat) : List Nat :=
  (List.range 16).map fun i => (n >>> ((15 - i) * 8)) &&& 255

/-- SHA-384/512 padding: append `0x80`, zeros, then the 128-bit length. -/
def padMessage (msg : List Nat) : List Nat :=
  let zeros := (128 - ((msg.length + 17) % 128)) % 128
  msg ++ [0x80] ++ List.replicate zeros 0 ++ lengthBytes16 (msg.length * 8)

/-- Message-schedule function σ0. -/
def smallSigma0 (x : Nat) : Nat := rotr64 x 1 ^^^ rotr64 x 8 ^^^ (x >>> 7)

/-- Message-schedule function σ1. -/
def smallSigma1 (x : Nat) : Nat := rotr64 x 19 ^^^ rotr64 x 61 ^^^ (x >>> 6)

/-- Round function Σ0. -/
def bigSigma0 (x : Nat) : Nat := rotr64 x 28 ^^^ rotr64 x 34 ^^^ rotr64 x 39

/-- Round function Σ1. -/
def bigSigma1 (x : Nat) : Nat := rotr64 x 14 ^^^ rotr64 x 18 ^^^ rotr64 x 41

/-- Choice function. -/
def ch (x y z : Nat) : Nat := (x &&& y) ^^^ (not64 x &&& z)

/-- Majority function. -/
def maj (x y z : Nat) : Nat := (x &&& y) ^^^ (x &&& z) ^^^ (y &&& z)

/-- Extend the schedule by `n` further words. -/
def extendSchedule : Nat → List Nat → List Nat
  | 0, w => w
  | n + 1, w =>
    let t := w.length
    let next := (smallSigma1 (w.getD (t - 2) 0) + w.getD (t - 7) 0 +
      smallSigma0 (w.getD (t - 15) 0) + w.getD (t - 16) 0) &&& mask64
    extendSchedule n (w ++ [next])

/-- The 80-word message schedule of a 128-byte block. -/
def schedule (block : List Nat) : List Nat :=
  extendSchedule 64 ((chunksOf 8 16 block).map word64OfBytes)

/-- One round of the SHA-512/384 compression function. -/
def roundStep (st : Sha2State) (kw : Nat × Nat) : Sha2State :=
  let t1 := (st.h + bigSigma1 st.e + ch st.e st.f st.g + kw.1 + kw.2) &&& mask64
  let t2 := (bigSigma0 st.a + maj st.a st.b st.c) &&& mask64
  ⟨(t1 + t2) &&& mask64, st.a, st.b, st.c, (st.d + t1) &&& mask64, st.e, st.f, st.g⟩

/-- Process one 128-byte block. -/
def compress (st : Sha2State) (block : List Nat) : Sha2State :=
  let fin := (K512.zip (schedule block)).foldl roundStep st
  ⟨(st.a + fin.a) &&& mask64, (st.b + fin.b) &&& mask64, (st.c + fin.c) &&& mask64,
   (st.d + fin.d) &&& mask64, (st.e + fin.e) &&& mask64, (st.f + fin.f) &&& mask64,
   (st.g + fin.g) &&& mask64, (st.h + fin.h) &&& mask64⟩

/-- SHA-384 digest (48 bytes) of a byte string. -/
def sha384 (msg : List Nat) : List Nat :=
  let padded := padMessage msg
  let fin := (chunksOf 128 (padded.length / 128) padded).foldl compress sha384Init
  ([fin.a, fin.b, fin.c, fin.d, fin.e, fin.f].map word64ToBytes).flatten

/-- HMAC-SHA384 (RFC 2104 with SHA-384, block size 128 bytes). -/
def hmacSha384 (key msg : List Nat) : List Nat :=
  let k0 := if key.length > 128 then sha384 key else key
  let k0p := k0 ++ List.replicate (128 - k0.length) 0
  sha384 ((k0p.map fun b => b ^^^ 0x5c) ++
    sha384 ((k0p.map fun b => b ^^^ 0x36) ++ msg))

/-- Lowercase hexadecimal digit for a value below 16. -/
def hexDigitChar (n : Nat) : Char :=
  if n < 10 then Char.ofNat (48 + n) else Char.ofNat (87 + n)

/-- Lowercase hexadecimal digits of a byte string. -/
def hexLowerList (bs : List Nat) : List Char :=
  bs.foldr (fun b acc => hexDigitChar (b >>> 4) :: hexDigitChar (b &&& 15) :: acc) []

/-- Lowercase hexadecimal rendering of a byte string
(Python `hexdigest()`). -/
def hexLower (bs : List Nat) : String :=
  String.mk (hexLowerList bs)

/-- UTF-8 encoding of a single code point. -/
def utf8EncodeCodePoint (n : Nat) : List Nat :=
  if n < 0x80 then [n]
  else if n < 0x800 then [0xc0 ||| (n >>> 6), 0x80 ||| (n &&& 0x3f)]
  else if n < 0x10000 then
    [0xe0 ||| (n >>> 12), 0x80 ||| ((n >>> 6) &&& 0x3f), 0x80 ||| (n &&& 0x3f)]
  else
    [0xf0 ||| (n >>> 18), 0x80 ||| ((n >>> 12) &&& 0x3f),
     0x80 ||| ((n >>> 6) &&& 0x3f), 0x80 ||| (n &&& 0x3f)]

/-- UTF-8 bytes of a string (Python `str.encode('utf8')`). -/
def utf8Bytes (s : String) : List Nat :=
  s.data.foldr (fun c acc => utf8EncodeCodePoint c.toNat ++ acc) []

/-- JSON values, the decoded form of a response body. -/
inductive Json where
  | null : Json
  | bool (b : Bool) : Json
  | num (q : ℚ) : Json
  | str (s : String) : Json
  | arr (elems : List Json) : Json
  | obj (fields : List (String × Json)) : Json

/-- Python exceptions that the modelled code can raise.
`bitfinexException` is the `BitfinexException(status_code, reason, content)`
of restv2.py; the others are built-in Python exceptions. -/
inductive PyError where
  | jsonDecodeError : PyError
  | typeError (msg : String) : PyError
  | attributeError (msg : String) : PyError
  | assertionError (msg : String) : PyError
  | bitfinexException (status : Nat) (reason : String) (content : Json) : PyError

/-- Python values acceptable as the `nonce_multiplier` argument of
`Client.__init__`; `isinstance(v, float)` holds exactly for `float`. -/
inductive PyVal where
  | none : PyVal
  | bool (b : Bool) : PyVal
  | int (n : ℤ) : PyVal
  | float (q : ℚ) : PyVal
  | str (s : String) : PyVal

/-- An HTTP request as handed to `requests.get` / `requests.post`:
header values may be Python `None`, `timeout=None` means no client-side
timeout, `data = none` means no request body. -/
structure Request where
  method : String
  url : String
  params : List (String × String)
  headers : Option (List (String × Option String))
  data : Option String
  timeout : Option ℚ
  verify : Bool

/-- An HTTP response as seen through the `requests` API: `json` is
`some j` exactly when the body text parses as the JSON value `j`
(`Response.json()` raises `JSONDecodeError` otherwise), and `text` is a
`str`-valued property. -/
structure Response where
  status_code : Nat
  reason : String
  text : String
  json : Option Json

/-- Module-level constant PROTOCOL of restv2.py. -/
def PROTOCOL : String := "https"

/-- Module-level constant HOST of restv2.py. -/
def HOST : String := "api.bitfinex.com"

/-- Module-level constant TIMEOUT of restv2.py (seconds). -/
def TIMEOUT : ℚ := 5

/-- The state of a constructed `Client`. -/
structure Client where
  base_url : String
  key : Option String
  secret : Option String
  nonce_multiplier : ℚ

/-- Translation of `Client.__init__(key=None, secret=None,
nonce_multiplier=1.0)`: `assert isinstance(nonce_multiplier, float)`
raises `AssertionError("nonce_multiplier must be decimal")` on every
non-float argument; otherwise the fields are stored unchanged and
`base_url = "%s://%s/" % (PROTOCOL, HOST)`. -/
def Client.init (key secret : Option String) (nonce_multiplier : PyVal) :
    Except PyError Client :=
  match nonce_multiplier with
  | .float q =>
    .ok { base_url := PROTOCOL ++ "://" ++ HOST ++ "/",
          key := key, secret := secret, nonce_multiplier := q }
  | _ => .error (.assertionError "nonce_multiplier must be decimal")

/-- Translation of `Client._nonce`, i.e.
`str(float(time.time()) * self.nonce_multiplier)`, at the numeric level:
the wall clock `time.time()` is the explicit parameter `t` and floats are
exact rationals.  The final `str(...)` rendering is applied separately
(see the `render` parameter of `Client._post`). -/
def Client._nonce (c : Client) (t : ℚ) : ℚ :=
  t * c.nonce_multiplier

/-- The canonical signing string of `Client._headers`:
`"/api/{}{}{}".format(path, nonce, body)`. -/
def signingString (path nonce body : String) : String :=
  "/api/" ++ path ++ nonce ++ body

/-- Translation of `Client._headers(path, nonce, body)`.  When
`self.secret` is `None`, `self.secret.encode('utf8')` raises
`AttributeError`; otherwise the result is the four-entry header dict
with the HMAC-SHA384 hex digest as `bfx-signature`. -/
def Client._headers (c : Client) (path nonce body : String) :
    Except PyError (List (String × Option String)) :=
  match c.secret with
  | Option.none =>
    .error (.attributeError "NoneType object has no attribute encode")
  | Option.some secret =>
    let signature :=
      hexLower (hmacSha384 (utf8Bytes secret) (utf8Bytes (signingString path nonce body)))
    .ok [("bfx-nonce", some nonce),
         ("bfx-apikey", c.key),
         ("bfx-signature", some signature),
         ("content-type", some "application/json")]

/-- The request `Client._get` hands to `requests.get(url, timeout=TIMEOUT,
params=params)`: no headers argument, explicit 5-second timeout,
`verify` left at its `requests` default `True`. -/
def getRequest (c : Client) (path : String) (params : List (String × String)) :
    Request :=
  { method := "GET", url := c.base_url ++ path, params := params,
    headers := Option.none, data := Option.none,
    timeout := some TIMEOUT, verify := true }

/-- The request `Client._post` hands to `requests.post(self.base_url + path,
headers=headers, data=payload, verify=verify)`: no timeout argument. -/
def postRequest (c : Client) (path payload : String)
    (headers : List (String × Option String)) (verify : Bool) : Request :=
  { method := "POST", url := c.base_url ++ path, params := [],
    headers := some headers, data := some payload,
    timeout := Option.none, verify := verify }

/-- Translation of `Client._get(path, **params)`.  `http` is the HTTP
layer (`requests`).  On status 200 the parsed JSON body is returned
(`JSONDecodeError` propagating when the body is not JSON); on any other
status the code tries `response.json()` and, in the `except` branch,
evaluates `response.text()` — which raises `TypeError`, because
`Response.text` is a `str` property, not a method. -/
def Client._get (c : Client) (path : String) (params : List (String × String))
    (http : Request → Response) : Except PyError Json :=
  let response := http (getRequest c path params)
  if response.status_code = 200 then
    match response.json with
    | Option.some j => .ok j
    | Option.none => .error .jsonDecodeError
  else
    match response.json with
    | Option.some content =>
      .error (.bitfinexException response.status_code response.reason content)
    | Option.none => .error (.typeError "str object is not callable")

/-- Translation of `Client._post(path, payload, verify=False)`.  The wall
clock `t` and the Python float-to-`str` rendering `render` are explicit
parameters; `http` is the HTTP layer.  Headers are built (and can raise)
before any request is issued; the response is then normalised exactly as
in `Client._get`. -/
def Client._post (c : Client) (path payload : String) (t : ℚ)
    (render : ℚ → String) (http : Request → Response) (verify : Bool) :
    Except PyError Json :=
  let nonce := render (Client._nonce c t)
  match Client._headers c path nonce payload with
  | .error e => .error e
  | .ok headers =>
    let response := http (postRequest c path payload headers verify)
    if response.status_code = 200 then
      match response.json with
      | Option.some j => .ok j
      | Option.none => .error .jsonDecodeError
    else
      match response.json with
      | Option.some content =>
        .error (.bitfinexException response.status_code response.reason content)
      | Option.none => .error (.typeError "str object is not callable")

/-- An HTTP layer that always answers with the fixed response `r`. -/
def constHttp (r : Response) : Request → Response :=
  fun _ => r

/-- A fixed stand-in for Python float-to-decimal-string rendering. -/
def constRender : ℚ → String :=
  fun _ => "0"

/-- A client with credentials configured (secret "abc", as in the golden
test of the spec) and the default multiplier. -/
def sampleClient : Client :=
  { base_url := "https://api.bitfinex.com/", key := some "key",
    secret := some "abc", nonce_multiplier := 1 }

/-- A client with a large nonce multiplier. -/
def bigMultClient : Client :=
  { base_url := "https://api.bitfinex.com/", key := some "key",
    secret := some "abc", nonce_multiplier := 1000000 }

/-- A client whose secret was left at its default `None`. -/
def noSecretClient : Client :=
  { base_url := "https://api.bitfinex.com/", key := some "key",
    secret := Option.none, nonce_multiplier := 1 }

/-- A 500 response whose body parses as the JSON object
with the single field error = nope. -/
def errorResponse : Response :=
  { status_code := 500, reason := "Internal Server Error",
    text := "\x7b\"error\":\"nope\"\x7d",
    json := some (.obj [("error", .str "nope")]) }

/-- A 500 response whose body "oops" is not valid JSON. -/
def oopsResponse : Response :=
  { status_code := 500, reason := "Internal Server Error",
    text := "oops", json := Option.none }

/-- A 200 response whose body parses as the JSON array of the single
string "1". -/
def okResponse : Response :=
  { status_code := 200, reason := "OK",
    text := "[\"1\"]", json := some (.arr [.str "1"]) }

/-! Helper lemmas. -/

/-- Folding the UTF-8 encoder over a list with any initial accumulator
appends the accumulator to the encoding of the list. -/
lemma utf8Fold_eq (l : List Char) (init : List Nat) :
    l.foldr (fun c acc => utf8EncodeCodePoint c.toNat ++ acc) init =
      l.foldr (fun c acc => utf8EncodeCodePoint c.toNat ++ acc) [] ++ init := by
  induction l with
  | nil => simp
  | cons c l ih => simp [ih]

/-- UTF-8 encoding turns string concatenation into byte concatenation. -/
lemma utf8Bytes_append (s t : String) :
    utf8Bytes (s ++ t) = utf8Bytes s ++ utf8Bytes t := by
  unfold utf8Bytes
  rw [String.data_append, List.foldr_append]
  exact utf8Fold_eq s.data _

/-- Values below 16 are rendered as lowercase hexadecimal digits. -/
lemma hexDigitChar_mem (n : Nat) (h : n < 16) :
    hexDigitChar n ∈ ("0123456789abcdef").data := by
  interval_cases n <;> decide

/-- Each byte produced by `word64ToBytes` is below 256. -/
lemma word64ToBytes_lt (w : Nat) : ∀ b ∈ word64ToBytes w, b < 256 := by
  intro b hb
  simp only [word64ToBytes, List.mem_cons, List.not_mem_nil, or_false] at hb
  rcases hb with rfl | rfl | rfl | rfl | rfl | rfl | rfl | rfl <;>
    exact Nat.lt_succ_of_le Nat.and_le_right

/-- Each byte of a SHA-384 digest is below 256. -/
lemma sha384_byte_lt (msg : List Nat) : ∀ b ∈ sha384 msg, b < 256 := by
  intro b hb
  simp only [sha384, List.mem_flatten, List.mem_map] at hb
  obtain ⟨l, ⟨w, _, rfl⟩, hbl⟩ := hb
  exact word64ToBytes_lt w b hbl

/-- Each byte of an HMAC-SHA384 digest is below 256. -/
lemma hmacSha384_byte_lt (key msg : List Nat) :
    ∀ b ∈ hmacSha384 key msg, b < 256 := by
  intro b hb
  simp only [hmacSha384] at hb
  exact sha384_byte_lt _ b hb

/-- Hex rendering of a byte string only produces the sixteen lowercase
hexadecimal digit characters. -/
lemma hexLowerList_subset (bs : List Nat) (h : ∀ b ∈ bs, b < 256) :
    ∀ ch ∈ hexLowerList bs, ch ∈ ("0123456789abcdef").data := by
  induction bs with
  | nil => intro ch hch; simp [hexLowerList] at hch
  | cons b bs ih =>
    intro ch hch
    have hb : b < 256 := h b (List.mem_cons_self b bs)
    simp only [hexLowerList, List.foldr_cons, List.mem_cons] at hch
    rcases hch with rfl | rfl | hch
    · exact hexDigitChar_mem _ (by rw [Nat.shiftRight_eq_div_pow]; omega)
    · exact hexDigitChar_mem _ (Nat.lt_succ_of_le Nat.and_le_right)
    · exact ih (fun x hx => h x (List.mem_cons_of_mem b hx)) ch hch

/-! Claim theorems. -/

/-- C1: for every path, nonce string and body string, the canonical
signing string is exactly the byte concatenation of "/api/", the path,
the nonce and the body, with no added separators; in particular for path
v2/auth/r/wallets, nonce 1000 and body "{}" it is exactly
"/api/v2/auth/r/wallets1000{}". -/
theorem signingString_byte_concat (path nonce body : String) :
    utf8Bytes (signingString path nonce body) =
      utf8Bytes "/api/" ++ utf8Bytes path ++ utf8Bytes nonce ++ utf8Bytes body ∧
    signingString "v2/auth/r/wallets" "1000" "\x7b\x7d" =
      "/api/v2/auth/r/wallets1000\x7b\x7d" := by
  refine ⟨?_, rfl⟩
  simp [signingString, utf8Bytes_append]

/-- C2: whenever the secret is present, `Client._headers` returns exactly
the four headers bfx-nonce (the nonce), bfx-apikey (the API key),
bfx-signature (the HMAC-SHA384 digest of the UTF-8 bytes of the signing
string keyed by the UTF-8 bytes of the secret, rendered in hexadecimal)
and content-type application/json; and that rendering uses only the
sixteen lowercase hexadecimal digit characters. -/
theorem headers_hmac_sha384 (c : Client) (path nonce body secret : String)
    (h : c.secret = some secret) :
    Client._headers c path nonce body =
      .ok [("bfx-nonce", some nonce),
           ("bfx-apikey", c.key),
           ("bfx-signature", some (hexLower (hmacSha384 (utf8Bytes secret)
             (utf8Bytes (signingString path nonce body))))),
           ("content-type", some "application/json")] ∧
    ∀ ch ∈ (hexLower (hmacSha384 (utf8Bytes secret)
        (utf8Bytes (signingString path nonce body)))).data,
      ch ∈ ("0123456789abcdef").data := by
  constructor
  · simp [Client._headers, h]
  · intro ch hch
    exact hexLowerList_subset _ (hmacSha384_byte_lt _ _) ch hch

set_option maxRecDepth 1000000 in
/-- Witness for C2 at the golden vector of the spec: secret "abc", path
v2/auth/r/wallets, nonce 1000, body "{}"; the digest is checked against
the reference value computed with an independent HMAC-SHA384
implementation. -/
theorem headers_hmac_sha384_witness :
    Client._headers sampleClient "v2/auth/r/wallets" "1000" "\x7b\x7d" =
      .ok [("bfx-nonce", some "1000"),
           ("bfx-apikey", some "key"),
           ("bfx-signature", some "852912b8758b1365913a82145023045dd4726a931a42491a67e817811a296a7b0a63e471d5550a5a3c0e65a12477fa53"),
           ("content-type", some "application/json")] := by
  rw [(headers_hmac_sha384 sampleClient "v2/auth/r/wallets" "1000" "\x7b\x7d" "abc" rfl).1]
  have hd : hexLower (hmacSha384 (utf8Bytes "abc")
      (utf8Bytes (signingString "v2/auth/r/wallets" "1000" "\x7b\x7d"))) =
      "852912b8758b1365913a82145023045dd4726a931a42491a67e817811a296a7b0a63e471d5550a5a3c0e65a12477fa53" := by
    decide
  rw [hd]
  rfl

/-- C3: on any response with a non-200 status whose body parses as JSON,
both `Client._get` and `Client._post` raise `BitfinexException` carrying
exactly the status code, the reason phrase and the parsed JSON content,
and never return a value. -/
theorem non200_json_raises (c : Client) (path payload secret : String)
    (params : List (String × String)) (t : ℚ) (render : ℚ → String)
    (verify : Bool) (r : Response) (j : Json)
    (hst : r.status_code ≠ 200) (hj : r.json = some j)
    (hsec : c.secret = some secret) :
    Client._get c path params (constHttp r) =
      .error (.bitfinexException r.status_code r.reason j) ∧
    Client._post c path payload t render (constHttp r) verify =
      .error (.bitfinexException r.status_code r.reason j) := by
  constructor
  · simp [Client._get, constHttp, hst, hj]
  · simp [Client._post, Client._headers, hsec, constHttp, hst, hj]

/-- Witness for C3: a 500 response with JSON body the object error=nope
raises `BitfinexException` with status 500 and that object as content,
from both operations. -/
theorem non200_json_raises_witness :
    Client._get sampleClient "v2/auth/r/wallets" [] (constHttp errorResponse) =
      .error (.bitfinexException 500 "Internal Server Error"
        (.obj [("error", .str "nope")])) ∧
    Client._post sampleClient "v2/auth/r/wallets" "\x7b\x7d" 1000 constRender
        (constHttp errorResponse) false =
      .error (.bitfinexException 500 "Internal Server Error"
        (.obj [("error", .str "nope")])) :=
  non200_json_raises sampleClient "v2/auth/r/wallets" "\x7b\x7d" "abc" [] 1000
    constRender false errorResponse (.obj [("error", .str "nope")])
    (by decide) rfl rfl

/-- C4 (code bug in the source): on a non-200 response whose body is not
valid JSON, the fallback branch evaluates `response.text()`; since
`Response.text` is a `str`-valued property of the `requests` library and
not a method, this raises `TypeError` instead of the intended
`BitfinexException` carrying the raw body text — in both `Client._get`
and `Client._post`. -/
theorem non200_text_fallback_type_error :
    Client._get sampleClient "v2/auth/r/wallets" [] (constHttp oopsResponse) =
      .error (.typeError "str object is not callable") ∧
    Client._post sampleClient "v2/auth/r/wallets" "\x7b\x7d" 1000 constRender
        (constHttp oopsResponse) false =
      .error (.typeError "str object is not callable") :=
  ⟨rfl, rfl⟩

/-- C5: with the wall clock passed explicitly (floats modelled by exact
rationals), two successive nonces under a non-decreasing clock and
multiplier 1.0 are non-decreasing; under a strictly increasing clock and
any positive multiplier the second nonce is strictly greater; and the
nonce value is exactly the clock time multiplied by the multiplier. -/
theorem nonce_monotone (c : Client) (t1 t2 t : ℚ) :
    (c.nonce_multiplier = 1 → t1 ≤ t2 →
      Client._nonce c t1 ≤ Client._nonce c t2) ∧
    (0 < c.nonce_multiplier → t1 < t2 →
      Client._nonce c t1 < Client._nonce c t2) ∧
    Client._nonce c t = t * c.nonce_multiplier := by
  refine ⟨?_, ?_, rfl⟩
  · intro h1 hle
    simpa [Client._nonce, h1] using hle
  · intro hpos hlt
    exact mul_lt_mul_of_pos_right hlt hpos

/-- Witness for C5 at clock times 1000 and 1001 with multipliers 1
and 1000000. -/
theorem nonce_monotone_witness :
    Client._nonce sampleClient 1000 ≤ Client._nonce sampleClient 1001 ∧
    Client._nonce bigMultClient 1000 < Client._nonce bigMultClient 1001 ∧
    Client._nonce sampleClient 7 = 7 * sampleClient.nonce_multiplier :=
  ⟨(nonce_monotone sampleClient 1000 1001 7).1 rfl (by norm_num),
   (nonce_monotone bigMultClient 1000 1001 7).2.1 (by norm_num [bigMultClient])
     (by norm_num),
   (nonce_monotone sampleClient 1000 1001 7).2.2⟩

/-- C6: on any response with status 200 whose body parses as the JSON
value j, both `Client._get` and `Client._post` return j verbatim,
whatever JSON value it is. -/
theorem status200_returns_json (c : Client) (path payload secret : String)
    (params : List (String × String)) (t : ℚ) (render : ℚ → String)
    (verify : Bool) (r : Response) (j : Json)
    (hst : r.status_code = 200) (hj : r.json = some j)
    (hsec : c.secret = some secret) :
    Client._get c path params (constHttp r) = .ok j ∧
    Client._post c path payload t render (constHttp r) verify = .ok j := by
  constructor
  · simp [Client._get, constHttp, hst, hj]
  · simp [Client._post, Client._headers, hsec, constHttp, hst, hj]

/-- Witness for C6: a 200 response with body the JSON array of the
string "1" decodes to that array from both operations. -/
theorem status200_returns_json_witness :
    Client._get sampleClient "v2/platform/status" [] (constHttp okResponse) =
      .ok (.arr [.str "1"]) ∧
    Client._post sampleClient "v2/platform/status" "\x7b\x7d" 1000 constRender
        (constHttp okResponse) false = .ok (.arr [.str "1"]) :=
  status200_returns_json sampleClient "v2/platform/status" "\x7b\x7d" "abc" []
    1000 constRender false okResponse (.arr [.str "1"]) rfl rfl rfl

/-- C7: the request issued by the public GET operation carries no
headers at all (in particular no authentication headers) and is
identical whatever API key and secret are configured on the client, and
so is the whole outcome of `Client._get`. -/
theorem public_get_credential_independent (burl path : String)
    (params : List (String × String)) (key secret key2 secret2 : Option String)
    (m m2 : ℚ) (http : Request → Response) :
    getRequest ⟨burl, key, secret, m⟩ path params =
      getRequest ⟨burl, key2, secret2, m2⟩ path params ∧
    (getRequest ⟨burl, key, secret, m⟩ path params).headers = Option.none ∧
    Client._get ⟨burl, key, secret, m⟩ path params http =
      Client._get ⟨burl, key2, secret2, m2⟩ path params http :=
  ⟨rfl, rfl, rfl⟩

/-- C8: every request issued by the GET operation carries the explicit
client-side timeout TIMEOUT = 5.0 seconds, while every request issued by
the POST operation carries no timeout, for all paths, parameters,
headers and bodies. -/
theorem get_post_timeout_asymmetry (c : Client) (path payload : String)
    (params : List (String × String))
    (headers : List (String × Option String)) (verify : Bool) :
    (getRequest c path params).timeout = some TIMEOUT ∧
    TIMEOUT = 5 ∧
    (postRequest c path payload headers verify).timeout = Option.none :=
  ⟨rfl, rfl, rfl⟩

/-- C9: invoking `Client._post` on a client whose secret is absent
raises `AttributeError` inside `Client._headers` (from
`self.secret.encode('utf8')`); the outcome does not depend on the HTTP
layer at all, i.e. no request is issued, and no signature is
produced. -/
theorem post_without_secret_attribute_error (c : Client)
    (path payload : String) (t : ℚ) (render : ℚ → String)
    (http other : Request → Response) (verify : Bool)
    (h : c.secret = Option.none) :
    Client._headers c path (render (Client._nonce c t)) payload =
      .error (.attributeError "NoneType object has no attribute encode") ∧
    Client._post c path payload t render http verify =
      .error (.attributeError "NoneType object has no attribute encode") ∧
    Client._post c path payload t render http verify =
      Client._post c path payload t render other verify := by
  refine ⟨?_, ?_, ?_⟩ <;> simp [Client._post, Client._headers, h]

/-- Witness for C9 on a client with key but no secret. -/
theorem post_without_secret_attribute_error_witness :
    Client._post noSecretClient "v2/auth/r/wallets" "\x7b\x7d" 1000 constRender
        (constHttp okResponse) false =
      .error (.attributeError "NoneType object has no attribute encode") :=
  (post_without_secret_attribute_error noSecretClient "v2/auth/r/wallets"
    "\x7b\x7d" 1000 constRender (constHttp okResponse)
    (constHttp errorResponse) false rfl).2.1

/-- C10: `Client.__init__` succeeds exactly when the nonce multiplier is
a Python float (the integer 2 is rejected by the assertion), no
positivity check is performed, and a stored multiplier — zero or
negative included — is used unchanged by `Client._nonce`. -/
theorem init_float_assertion (key secret : Option String) (v : PyVal) :
    ((∃ c, Client.init key secret v = .ok c) ↔ ∃ q, v = .float q) ∧
    Client.init key secret (.int 2) =
      .error (.assertionError "nonce_multiplier must be decimal") ∧
    (∀ q c t, Client.init key secret (.float q) = .ok c →
      c.nonce_multiplier = q ∧ Client._nonce c t = t * q) := by
  refine ⟨⟨?_, ?_⟩, rfl, ?_⟩
  · rintro ⟨c, hc⟩
    cases v with
    | float q => exact ⟨q, rfl⟩
    | none => exact Except.noConfusion hc
    | bool b => exact Except.noConfusion hc
    | int n => exact Except.noConfusion hc
    | str s => exact Except.noConfusion hc
  · rintro ⟨q, rfl⟩
    exact ⟨_, rfl⟩
  · intro q c t hc
    simp only [Client.init] at hc
    injection hc with hc2
    subst hc2
    exact ⟨rfl, rfl⟩

/-- Witness for C10: the integer 2 is rejected, the float 0 is accepted
despite not being positive, and the stored multiplier 0 is used
unchanged by the nonce computation. -/
theorem init_float_assertion_witness :
    Client.init (some "k") (some "s") (.int 2) =
      .error (.assertionError "nonce_multiplier must be decimal") ∧
    ((⟨"https://api.bitfinex.com/", some "k", some "s", 0⟩ : Client).nonce_multiplier = 0 ∧
      Client._nonce (⟨"https://api.bitfinex.com/", some "k", some "s", 0⟩ : Client) 7 = 7 * 0) :=
  ⟨(init_float_assertion (some "k") (some "s") (.int 2)).2.1,
   (init_float_assertion (some "k") (some "s") (.float 0)).2.2 0
     ⟨"https://api.bitfinex.com/", some "k", some "s", 0⟩ 7 rfl⟩

end Bitfinex
